import Mathlib

/-!
Shallow embedding of the billing repository (invoice, payment, discount and
tax services) in Lean 4, with theorems checking the natural-language
specification against the code.

Monetary amounts are modelled as exact rationals (`Rat`), matching the
`Decimal` arithmetic of the service layer.  Timestamps are abstract natural
numbers; identifier generation (uuid, invoice numbers) is passed in as an
explicit "fresh value" argument.  Database rows are explicit structures and
a database session is explicit state passing.  Python truthiness tests on
optional strings / floats (`if status_message:`, `if coupon.max_discount_amount:`)
are translated faithfully: `None`, the empty string, and `0.0` are falsy.
-/

namespace Billing

/-- Status enum of `app/models/invoice.py` (`InvoiceStatus`). -/
inductive InvoiceStatus where
  | draft
  | issued
  | partiallyPaid
  | paid
  | overdue
  | cancelled
deriving DecidableEq, Repr

/-- Invoice row of `app/models/invoice.py` (`Invoice`).  Columns irrelevant to
the verified claims (indexes, `created_at`, relationship attributes) are kept
only where a claim observes them. -/
structure Invoice where
  id : Nat
  invoice_number : String
  user_id : String
  customer_id : String
  customer_name : Option String
  customer_email : Option String
  customer_address : Option String
  subtotal : Rat
  tax_amount : Rat
  discount_amount : Rat
  total_amount : Rat
  status : InvoiceStatus
  notes : Option String
  issue_date : Nat
  due_date : Option Nat
  paid_date : Option Nat
  updated_at : Nat
deriving DecidableEq, Repr

/-- Invoice line item row (`InvoiceItem`). -/
structure InvoiceItem where
  invoice_id : Nat
  description : String
  quantity : Rat
  unit_price : Rat
  amount : Rat
deriving DecidableEq, Repr

/-- An event published by a service: routing key, event type and the payload
fields a claim observes.  The full JSON payload is abstracted to the fields
the claims mention. -/
structure EventMsg where
  routing_key : String
  event_type : String
deriving DecidableEq, Repr

/-- Errors raised by the service layer (`HTTPException` in the source):
404 not-found, 403 forbidden, 400 bad-request with its detail string. -/
inductive ServiceError where
  | notFound
  | forbidden
  | badRequest (detail : String)
deriving DecidableEq, Repr

/-- `InvoiceRepository.update_invoice_status`
(`app/repositories/invoice_repository.py`, lines 150-180): when the new
status differs it is written, `paid_date` is recorded on a transition to
PAID only when currently unset, and `updated_at` is refreshed; when the new
status equals the current one the row is returned untouched. -/
def updateInvoiceStatus (inv : Invoice) (st : InvoiceStatus) (now : Nat) : Invoice :=
  if inv.status ≠ st then
    { inv with
        status := st
        paid_date := if st = InvoiceStatus.paid ∧ inv.paid_date = none
                     then some now else inv.paid_date
        updated_at := now }
  else
    inv

/-- Update payload accepted by the update route: the fields of the
`InvoiceUpdate` schema (`app/schemas/invoice.py`, lines 66-72), each
optionally present (the route passes `model_dump(exclude_unset=True)`, so a
key is either absent or carries an explicit value, possibly null). -/
structure InvoiceUpdate where
  customer_name : Option (Option String) := none
  customer_email : Option (Option String) := none
  customer_address : Option (Option String) := none
  notes : Option (Option String) := none
  due_date : Option (Option Nat) := none
deriving DecidableEq, Repr

/-- One field step of `InvoiceRepository.update_invoice`'s loop: a present
key whose value differs from the current one is written and counted as a
change. -/
def applyField {α : Type} (field : Option (Option α)) (current : Option α)
    [DecidableEq α] : Option α × Bool :=
  match field with
  | none => (current, false)
  | some v => if current ≠ v then (v, true) else (current, false)

/-- `InvoiceRepository.update_invoice`
(`app/repositories/invoice_repository.py`, lines 118-148): each present key
of the update payload that differs from the stored value is written; when at
least one field changed, `updated_at` is refreshed. -/
def updateInvoice (inv : Invoice) (upd : InvoiceUpdate) (now : Nat) : Invoice :=
  let n := applyField upd.customer_name inv.customer_name
  let e := applyField upd.customer_email inv.customer_email
  let a := applyField upd.customer_address inv.customer_address
  let t := applyField upd.notes inv.notes
  let d := applyField upd.due_date inv.due_date
  let changed := n.2 || e.2 || a.2 || t.2 || d.2
  { inv with
      customer_name := n.1
      customer_email := e.1
      customer_address := a.1
      notes := t.1
      due_date := d.1
      updated_at := if changed then now else inv.updated_at }

/-- Arguments of `InvoiceService.create_invoice`
(`app/services/invoice_service.py`, lines 22-104). -/
structure CreateInvoiceArgs where
  user_id : String
  customer_id : String
  customer_name : Option String
  customer_email : Option String
  customer_address : Option String
  subtotal : Rat
  tax_amount : Rat
  discount_amount : Rat
  items : List (String × Rat × Rat)
  notes : Option String
  due_date : Option Nat
  status : InvoiceStatus := InvoiceStatus.draft
deriving DecidableEq, Repr

/-- `InvoiceService.create_invoice` (`app/services/invoice_service.py`,
lines 22-104): computes `total_amount = subtotal + tax_amount -
discount_amount`, stores the invoice, stores one item per input item with
`amount = quantity * unit_price`, and publishes an `invoice_created` event
only when the initial status is not DRAFT.  `freshNumber` stands for the
generated invoice number, `newId` for the database-assigned id, `now` for
the clock. -/
def createInvoice (args : CreateInvoiceArgs) (freshNumber : String)
    (newId : Nat) (now : Nat) : Invoice × List InvoiceItem × List EventMsg :=
  let total := args.subtotal + args.tax_amount - args.discount_amount
  let inv : Invoice :=
    { id := newId
      invoice_number := freshNumber
      user_id := args.user_id
      customer_id := args.customer_id
      customer_name := args.customer_name
      customer_email := args.customer_email
      customer_address := args.customer_address
      subtotal := args.subtotal
      tax_amount := args.tax_amount
      discount_amount := args.discount_amount
      total_amount := total
      status := args.status
      notes := args.notes
      issue_date := now
      due_date := args.due_date
      paid_date := none
      updated_at := now }
  let items := args.items.map fun (d, q, p) =>
    { invoice_id := newId, description := d, quantity := q
      unit_price := p, amount := q * p }
  let events :=
    if args.status ≠ InvoiceStatus.draft then
      [{ routing_key := "invoice.created", event_type := "invoice_created" }]
    else []
  (inv, items, events)

/-- `InvoiceService.get_invoice` (`app/services/invoice_service.py`,
lines 106-123): 404 when the row does not exist, 403 when the owner does
not match, otherwise the invoice.  The database lookup by id is modelled as
the `Option Invoice` argument. -/
def getInvoice (stored : Option Invoice) (user_id : String) :
    Except ServiceError Invoice :=
  match stored with
  | none => .error .notFound
  | some inv =>
    if inv.user_id ≠ user_id then .error .forbidden else .ok inv

/-- `InvoiceService.update_invoice` (`app/services/invoice_service.py`,
lines 150-176): fetch with ownership check, reject any status other than
DRAFT with a 400, otherwise apply the repository update.  No event is
published. -/
def serviceUpdateInvoice (stored : Option Invoice) (user_id : String)
    (upd : InvoiceUpdate) (now : Nat) :
    Except ServiceError (Invoice × List EventMsg) :=
  match getInvoice stored user_id with
  | .error e => .error e
  | .ok inv =>
    if inv.status ≠ InvoiceStatus.draft then
      .error (.badRequest "Can only update draft invoices")
    else
      .ok (updateInvoice inv upd now, [])

/-- `InvoiceService.issue_invoice` (`app/services/invoice_service.py`,
lines 178-226): fetch with ownership check, reject any status other than
DRAFT with a 400, otherwise set status ISSUED and publish the
`invoice_created` event. -/
def issueInvoice (stored : Option Invoice) (user_id : String) (now : Nat) :
    Except ServiceError (Invoice × List EventMsg) :=
  match getInvoice stored user_id with
  | .error e => .error e
  | .ok inv =>
    if inv.status ≠ InvoiceStatus.draft then
      .error (.badRequest "Can only issue draft invoices")
    else
      let inv' := updateInvoiceStatus inv InvoiceStatus.issued now
      .ok (inv', [{ routing_key := "invoice.created", event_type := "invoice_created" }])

/-- `InvoiceService.cancel_invoice` (`app/services/invoice_service.py`,
lines 228-266): fetch with ownership check, reject a PAID invoice with a
400, otherwise set status CANCELLED and publish the `invoice_updated`
event. -/
def cancelInvoice (stored : Option Invoice) (user_id : String) (now : Nat) :
    Except ServiceError (Invoice × List EventMsg) :=
  match getInvoice stored user_id with
  | .error e => .error e
  | .ok inv =>
    if inv.status = InvoiceStatus.paid then
      .error (.badRequest "Cannot cancel paid invoices")
    else
      let inv' := updateInvoiceStatus inv InvoiceStatus.cancelled now
      .ok (inv', [{ routing_key := "invoice.updated", event_type := "invoice_updated" }])

/-- The stored row after a service call: the service raises (if at all)
before any repository write, so an error leaves the stored invoice as it
was, while success replaces it with the returned row. -/
def postState (stored : Option Invoice)
    (r : Except ServiceError (Invoice × List EventMsg)) : Option Invoice :=
  match r with
  | .ok (inv, _) => some inv
  | .error _ => stored

/-- The invariant of §3 of the spec: `total_amount = subtotal + tax_amount -
discount_amount`. -/
def totalInvariant (inv : Invoice) : Prop :=
  inv.total_amount = inv.subtotal + inv.tax_amount - inv.discount_amount

instance (inv : Invoice) : Decidable (totalInvariant inv) := by
  unfold totalInvariant; infer_instance

/-- One mutating invoice operation of the service layer. -/
inductive InvoiceOp where
  | createOp (args : CreateInvoiceArgs) (freshNumber : String) (newId : Nat)
  | updateOp (user_id : String) (upd : InvoiceUpdate)
  | issueOp (user_id : String)
  | cancelOp (user_id : String)
deriving DecidableEq, Repr

/-- Run one mutating operation against the stored invoice. -/
def runInvoiceOp (op : InvoiceOp) (stored : Option Invoice) (now : Nat) :
    Except ServiceError (Invoice × List EventMsg) :=
  match op with
  | .createOp args freshNumber newId =>
    let (inv, _, evs) := createInvoice args freshNumber newId now
    .ok (inv, evs)
  | .updateOp u upd => serviceUpdateInvoice stored u upd now
  | .issueOp u => issueInvoice stored u now
  | .cancelOp u => cancelInvoice stored u now

/-- Payload of a `payment_received` event as consumed by the invoice
service (invoice id, cumulative amount applied). -/
structure PaymentReceivedEvent where
  event_id : String
  invoice_id : Nat
  amount : Rat
deriving DecidableEq, Repr

/-- `handle_payment_received` (`app/services/invoice_service.py`,
lines 310-326), translated from the source as written: the body only logs
the event id — it opens no database session and calls no repository
function, so the stored invoice is returned exactly as it was. -/
def handlePaymentReceived (_event : PaymentReceivedEvent)
    (stored : Option Invoice) : Option Invoice :=
  stored

/-- Monetary fields are untouched by the repository field update. -/
lemma totalInvariant_updateInvoice (inv : Invoice) (upd : InvoiceUpdate) (now : Nat)
    (h : totalInvariant inv) : totalInvariant (updateInvoice inv upd now) := by
  simpa [updateInvoice, totalInvariant] using h

/-- Monetary fields are untouched by the repository status update. -/
lemma totalInvariant_updateInvoiceStatus (inv : Invoice) (st : InvoiceStatus) (now : Nat)
    (h : totalInvariant inv) : totalInvariant (updateInvoiceStatus inv st now) := by
  unfold updateInvoiceStatus
  split <;> simpa [totalInvariant] using h

/-- A successful fetch returns the stored row and implies ownership. -/
lemma getInvoice_ok (stored : Option Invoice) (u : String) (inv : Invoice)
    (h : getInvoice stored u = .ok inv) : stored = some inv := by
  unfold getInvoice at h
  match stored with
  | none => exact absurd h (by simp)
  | some i =>
    simp only at h
    split at h
    · exact absurd h (by simp)
    · injection h with h1
      exact congrArg some h1

/-- C1: for every invoice, after every mutating operation (create_invoice,
update_invoice, issue_invoice, cancel_invoice), the invoice's
`total_amount` equals `subtotal + tax_amount - discount_amount`:
create establishes the equation and the three other operations preserve it. -/
theorem C1_total_amount_invariant (op : InvoiceOp) (stored : Option Invoice)
    (now : Nat) (inv' : Invoice) (evs : List EventMsg)
    (hpre : ∀ i ∈ stored, totalInvariant i)
    (hrun : runInvoiceOp op stored now = .ok (inv', evs)) :
    totalInvariant inv' := by
  cases op with
  | createOp args freshNumber newId =>
    simp only [runInvoiceOp, createInvoice, Except.ok.injEq, Prod.mk.injEq] at hrun
    obtain ⟨h1, _⟩ := hrun
    subst h1
    simp [totalInvariant]
  | updateOp u upd =>
    simp only [runInvoiceOp, serviceUpdateInvoice] at hrun
    split at hrun
    · exact absurd hrun (by simp)
    · rename_i inv heq
      have hinv : totalInvariant inv :=
        hpre inv (Option.mem_def.mpr (getInvoice_ok stored u inv heq))
      split at hrun
      · exact absurd hrun (by simp)
      · simp only [Except.ok.injEq, Prod.mk.injEq] at hrun
        obtain ⟨h1, _⟩ := hrun
        subst h1
        exact totalInvariant_updateInvoice inv upd now hinv
  | issueOp u =>
    simp only [runInvoiceOp, issueInvoice] at hrun
    split at hrun
    · exact absurd hrun (by simp)
    · rename_i inv heq
      have hinv : totalInvariant inv :=
        hpre inv (Option.mem_def.mpr (getInvoice_ok stored u inv heq))
      split at hrun
      · exact absurd hrun (by simp)
      · simp only [Except.ok.injEq, Prod.mk.injEq] at hrun
        obtain ⟨h1, _⟩ := hrun
        subst h1
        exact totalInvariant_updateInvoiceStatus inv InvoiceStatus.issued now hinv
  | cancelOp u =>
    simp only [runInvoiceOp, cancelInvoice] at hrun
    split at hrun
    · exact absurd hrun (by simp)
    · rename_i inv heq
      have hinv : totalInvariant inv :=
        hpre inv (Option.mem_def.mpr (getInvoice_ok stored u inv heq))
      split at hrun
      · exact absurd hrun (by simp)
      · simp only [Except.ok.injEq, Prod.mk.injEq] at hrun
        obtain ⟨h1, _⟩ := hrun
        subst h1
        exact totalInvariant_updateInvoiceStatus inv InvoiceStatus.cancelled now hinv

/-- Concrete create arguments used by the C1 witness. -/
def c1Args : CreateInvoiceArgs :=
  { user_id := "user-1"
    customer_id := "cust-1"
    customer_name := some "Ada"
    customer_email := some "ada@example.com"
    customer_address := none
    subtotal := 100
    tax_amount := 19
    discount_amount := 9
    items := [("widget", 2, 50)]
    notes := none
    due_date := none }

/-- Witness for C1 at a concrete creation: subtotal 100, tax 19, discount 9
yield total 110. -/
theorem C1_total_amount_invariant_witness :
    totalInvariant (createInvoice c1Args "INV-1" 1 0).1 :=
  C1_total_amount_invariant (.createOp c1Args "INV-1" 1) none 0
    (createInvoice c1Args "INV-1" 1 0).1 (createInvoice c1Args "INV-1" 1 0).2.2
    (by simp) rfl

/-- A concrete ISSUED invoice, total 100, nothing paid yet. -/
def sampleIssued : Invoice :=
  { id := 7
    invoice_number := "INV-7"
    user_id := "user-1"
    customer_id := "cust-1"
    customer_name := some "Ada"
    customer_email := some "ada@example.com"
    customer_address := none
    subtotal := 100
    tax_amount := 0
    discount_amount := 0
    total_amount := 100
    status := InvoiceStatus.issued
    notes := none
    issue_date := 0
    due_date := none
    paid_date := none
    updated_at := 0 }

/-- A concrete DRAFT invoice. -/
def sampleDraft : Invoice :=
  { sampleIssued with id := 8, invoice_number := "INV-8", status := InvoiceStatus.draft }

/-- C2: the spec says the payment-received handler moves an invoice whose
cumulative payments equal its total to PAID and records `paid_date`.  The
code's `handle_payment_received` only logs the event: handling a
payment-received event whose amount equals the invoice total leaves the
stored invoice byte-for-byte unchanged — still ISSUED, `paid_date` still
unset — contradicting the handler's own docstring ("It updates the invoice
status and records the payment"). -/
theorem C2_payment_received_handler_only_logs :
    handlePaymentReceived { event_id := "evt-1", invoice_id := 7, amount := 100 }
        (some sampleIssued) = some sampleIssued
    ∧ sampleIssued.total_amount = 100
    ∧ sampleIssued.status ≠ InvoiceStatus.paid
    ∧ sampleIssued.paid_date = none := by
  refine ⟨rfl, rfl, ?_, rfl⟩
  decide

/-- C3: issue_invoice on an invoice whose status is not DRAFT fails with
the illegal-state-transition 400 and leaves the stored invoice unchanged;
after issuing a DRAFT invoice (which sets status ISSUED), issuing it a
second time fails the same way with the status still ISSUED. -/
theorem C3_issue_only_from_draft (inv d inv1 : Invoice) (evs : List EventMsg)
    (now later : Nat)
    (hnd : inv.status ≠ InvoiceStatus.draft)
    (hd : d.status = InvoiceStatus.draft)
    (hissue : issueInvoice (some d) d.user_id now = .ok (inv1, evs)) :
    issueInvoice (some inv) inv.user_id later
        = .error (.badRequest "Can only issue draft invoices")
    ∧ postState (some inv) (issueInvoice (some inv) inv.user_id later) = some inv
    ∧ inv1.status = InvoiceStatus.issued
    ∧ issueInvoice (some inv1) inv1.user_id later
        = .error (.badRequest "Can only issue draft invoices")
    ∧ postState (some inv1) (issueInvoice (some inv1) inv1.user_id later) = some inv1 := by
  have part1 : issueInvoice (some inv) inv.user_id later
      = .error (.badRequest "Can only issue draft invoices") := by
    simp [issueInvoice, getInvoice, hnd]
  have hinv1 : inv1 = updateInvoiceStatus d InvoiceStatus.issued now := by
    simp [issueInvoice, getInvoice, hd] at hissue
    exact hissue.1.symm
  have hst1 : inv1.status = InvoiceStatus.issued := by
    subst hinv1
    simp [updateInvoiceStatus, hd]
  have part2 : issueInvoice (some inv1) inv1.user_id later
      = .error (.badRequest "Can only issue draft invoices") := by
    simp [issueInvoice, getInvoice, hst1]
  exact ⟨part1, by simp [postState, part1], hst1, part2, by simp [postState, part2]⟩

/-- Witness for C3: the concrete ISSUED and DRAFT invoices above; issuing
the draft at time 5 then re-issuing at time 6 fails. -/
theorem C3_issue_only_from_draft_witness :
    issueInvoice (some sampleIssued) sampleIssued.user_id 6
        = .error (.badRequest "Can only issue draft invoices")
    ∧ (updateInvoiceStatus sampleDraft InvoiceStatus.issued 5).status
        = InvoiceStatus.issued := by
  have h := C3_issue_only_from_draft sampleIssued sampleDraft
    (updateInvoiceStatus sampleDraft InvoiceStatus.issued 5)
    [{ routing_key := "invoice.created", event_type := "invoice_created" }]
    5 6 (by decide) (by decide) (by rfl)
  exact ⟨h.1, h.2.2.1⟩

/-- C4: cancel_invoice on a PAID invoice always fails and leaves the row
unchanged; on a DRAFT or ISSUED invoice it always succeeds and sets status
CANCELLED; and CANCELLED is terminal: update_invoice and issue_invoice on a
cancelled invoice are rejected, and cancel_invoice (the only other
status-changing entry point) returns the row unchanged, so every operation
leaves the status CANCELLED. -/
theorem C4_cancel_rules (inv : Invoice) (u : String) (upd : InvoiceUpdate)
    (now later : Nat) :
    (inv.status = InvoiceStatus.paid →
      cancelInvoice (some inv) inv.user_id now
          = .error (.badRequest "Cannot cancel paid invoices")
      ∧ postState (some inv) (cancelInvoice (some inv) inv.user_id now) = some inv)
    ∧ (inv.status = InvoiceStatus.draft ∨ inv.status = InvoiceStatus.issued →
      cancelInvoice (some inv) inv.user_id now
          = .ok (updateInvoiceStatus inv InvoiceStatus.cancelled now,
                 [{ routing_key := "invoice.updated", event_type := "invoice_updated" }])
      ∧ (updateInvoiceStatus inv InvoiceStatus.cancelled now).status
          = InvoiceStatus.cancelled)
    ∧ (inv.status = InvoiceStatus.cancelled →
      serviceUpdateInvoice (some inv) inv.user_id upd later
          = .error (.badRequest "Can only update draft invoices")
      ∧ issueInvoice (some inv) inv.user_id later
          = .error (.badRequest "Can only issue draft invoices")
      ∧ cancelInvoice (some inv) inv.user_id later
          = .ok (inv, [{ routing_key := "invoice.updated", event_type := "invoice_updated" }])
      ∧ (∀ i, postState (some inv) (serviceUpdateInvoice (some inv) u upd later) = some i →
          i.status = InvoiceStatus.cancelled)
      ∧ (∀ i, postState (some inv) (issueInvoice (some inv) u later) = some i →
          i.status = InvoiceStatus.cancelled)
      ∧ (∀ i, postState (some inv) (cancelInvoice (some inv) u later) = some i →
          i.status = InvoiceStatus.cancelled)) := by
  refine ⟨?_, ?_, ?_⟩
  · intro hp
    have he : cancelInvoice (some inv) inv.user_id now
        = .error (.badRequest "Cannot cancel paid invoices") := by
      simp [cancelInvoice, getInvoice, hp]
    exact ⟨he, by simp [postState, he]⟩
  · intro h
    have hne : inv.status ≠ InvoiceStatus.paid := by
      rcases h with h | h <;> simp [h]
    have hnc : inv.status ≠ InvoiceStatus.cancelled := by
      rcases h with h | h <;> simp [h]
    refine ⟨by simp [cancelInvoice, getInvoice, hne], ?_⟩
    simp [updateInvoiceStatus, hnc]
  · intro hc
    have hupd : serviceUpdateInvoice (some inv) inv.user_id upd later
        = .error (.badRequest "Can only update draft invoices") := by
      simp [serviceUpdateInvoice, getInvoice, hc]
    have hiss : issueInvoice (some inv) inv.user_id later
        = .error (.badRequest "Can only issue draft invoices") := by
      simp [issueInvoice, getInvoice, hc]
    have hcan : cancelInvoice (some inv) inv.user_id later
        = .ok (inv, [{ routing_key := "invoice.updated", event_type := "invoice_updated" }]) := by
      simp [cancelInvoice, getInvoice, hc, updateInvoiceStatus]
    refine ⟨hupd, hiss, hcan, ?_, ?_, ?_⟩
    · intro i hi
      by_cases hu : inv.user_id = u
      · rw [← hu] at hi
        rw [hupd] at hi
        simp only [postState, Option.some.injEq] at hi
        rw [← hi]
        exact hc
      · have : serviceUpdateInvoice (some inv) u upd later = .error .forbidden := by
          simp [serviceUpdateInvoice, getInvoice, hu]
        rw [this] at hi
        simp only [postState, Option.some.injEq] at hi
        rw [← hi]
        exact hc
    · intro i hi
      by_cases hu : inv.user_id = u
      · rw [← hu] at hi
        rw [hiss] at hi
        simp only [postState, Option.some.injEq] at hi
        rw [← hi]
        exact hc
      · have : issueInvoice (some inv) u later = .error .forbidden := by
          simp [issueInvoice, getInvoice, hu]
        rw [this] at hi
        simp only [postState, Option.some.injEq] at hi
        rw [← hi]
        exact hc
    · intro i hi
      by_cases hu : inv.user_id = u
      · rw [← hu] at hi
        rw [hcan] at hi
        simp only [postState, Option.some.injEq] at hi
        rw [← hi]
        exact hc
      · have : cancelInvoice (some inv) u later = .error .forbidden := by
          simp [cancelInvoice, getInvoice, hu]
        rw [this] at hi
        simp only [postState, Option.some.injEq] at hi
        rw [← hi]
        exact hc

/-- Witness for C4: cancelling the concrete ISSUED invoice succeeds with
status CANCELLED, and update/issue on the resulting cancelled invoice are
rejected. -/
theorem C4_cancel_rules_witness :
    ((updateInvoiceStatus sampleIssued InvoiceStatus.cancelled 3).status
        = InvoiceStatus.cancelled)
    ∧ serviceUpdateInvoice
        (some (updateInvoiceStatus sampleIssued InvoiceStatus.cancelled 3))
        (updateInvoiceStatus sampleIssued InvoiceStatus.cancelled 3).user_id {} 4
        = .error (.badRequest "Can only update draft invoices") := by
  have h1 := C4_cancel_rules sampleIssued "user-1" {} 3 4
  have h2 := C4_cancel_rules (updateInvoiceStatus sampleIssued InvoiceStatus.cancelled 3)
    "user-1" {} 3 4
  exact ⟨(h1.2.1 (Or.inr (by decide))).2, (h2.2.2 (by decide)).1⟩

/-- Python truthiness of an optional string: `None` and `""` are falsy. -/
def strTruthy : Option String → Bool
  | none => false
  | some s => s ≠ ""

/-- Status enum of `app/models/payment.py` (`PaymentStatus`). -/
inductive PaymentStatus where
  | pending
  | processing
  | completed
  | failed
  | refunded
deriving DecidableEq, Repr

/-- Payment row of `app/models/payment.py` (`Payment`). -/
structure Payment where
  id : Nat
  user_id : String
  invoice_id : Nat
  invoice_number : String
  amount : Rat
  currency : String
  payment_method : String
  payment_method_details : Option String
  transaction_reference : Option String
  external_reference : Option String
  status : PaymentStatus
  status_message : Option String
  payment_date : Option Nat
  updated_at : Nat
deriving DecidableEq, Repr

/-- A gateway outcome as returned by `MockPaymentGateway.process_payment` or
`PaymentGateway.process_payment` (`app/services/payment_service.py`,
lines 17-114): a success flag, an optional error code and message, and an
optional transaction id. -/
structure GatewayResponse where
  success : Bool
  error_code : Option String
  error_message : Option String
  transaction_id : Option String
deriving DecidableEq, Repr

/-- Python's `str.endswith`, modelled over the character list. -/
def strEndsWith (s post : String) : Bool :=
  post.data.isSuffixOf s.data

/-- `MockPaymentGateway.process_payment` (`app/services/payment_service.py`,
lines 22-53): a card number ending in "0000" is declined with message
"Card was declined"; anything else succeeds with a generated transaction id
(`freshTxn`). -/
def mockProcessPayment (card_number : String) (freshTxn : String) : GatewayResponse :=
  if strEndsWith card_number "0000" then
    { success := false
      error_code := some "card_declined"
      error_message := some "Card was declined"
      transaction_id := none }
  else
    { success := true
      error_code := none
      error_message := none
      transaction_id := some freshTxn }

/-- `PaymentRepository.update_payment_status`
(`app/repositories/payment_repository.py`, lines 90-112): the status is
always written; `status_message` and `external_reference` are written only
when truthy; `payment_date` is written only on COMPLETED when currently
unset; `updated_at` is always refreshed. -/
def updatePaymentStatus (p : Payment) (st : PaymentStatus)
    (status_message : Option String) (external_reference : Option String)
    (now : Nat) : Payment :=
  let p1 := { p with status := st }
  let p2 := if strTruthy status_message
            then { p1 with status_message := status_message } else p1
  let p3 := if strTruthy external_reference
            then { p2 with external_reference := external_reference } else p2
  let p4 := if st = PaymentStatus.completed ∧ p.payment_date = none
            then { p3 with payment_date := some now } else p3
  { p4 with updated_at := now }

/-- Payment attempt row of `app/models/payment.py` (`PaymentAttempt`), as
written by `PaymentRepository.record_payment_attempt`
(`app/repositories/payment_repository.py`, lines 114-136).  The `success`
column is an integer, 1 for true and 0 for false. -/
structure PaymentAttempt where
  payment_id : Nat
  gateway_response : GatewayResponse
  success : Nat
  error_message : Option String
  correlation_id : Option String
deriving DecidableEq, Repr

/-- `PaymentRepository.record_payment_attempt`: stores one row per call
with the integer-encoded success flag. -/
def recordPaymentAttempt (payment_id : Nat) (gw : GatewayResponse)
    (success : Bool) (error_message : Option String)
    (correlation_id : Option String) : PaymentAttempt :=
  { payment_id := payment_id
    gateway_response := gw
    success := if success then 1 else 0
    error_message := error_message
    correlation_id := correlation_id }

/-- Modelled from the spec: the payment-service event publisher module
(`app.core.event_publisher`, imported by `app/services/payment_service.py`)
is not under `src/`; §6 of the spec lists the routing key `payment.received`
for the payment-received event. -/
def paymentReceivedEventMsg : EventMsg :=
  { routing_key := "payment.received", event_type := "payment_received" }

/-- Modelled from the spec: the payment-service event publisher module is
not under `src/`; §6 of the spec lists the routing key `payment.failed` for
the payment-failed event. -/
def paymentFailedEventMsg : EventMsg :=
  { routing_key := "payment.failed", event_type := "payment_failed" }

/-- Result of `PaymentService.create_payment`: the final payment row, the
attempt rows written, and the events published. -/
structure CreatePaymentResult where
  payment : Payment
  attempts : List PaymentAttempt
  events : List EventMsg
deriving DecidableEq, Repr

/-- `PaymentService.create_payment` (`app/services/payment_service.py`,
lines 129-247), after the payment-method validation: creates the payment
row with status PROCESSING and a generated transaction reference, calls the
gateway (its outcome `gw` is an input of the embedding; both gateway
classes absorb their own exceptions and always return a response dict),
records exactly one PaymentAttempt carrying the gateway outcome, then on
success marks the payment COMPLETED with `external_reference` and publishes
`payment.received`, and on failure marks it FAILED with `status_message`
from the gateway error and publishes `payment.failed`. -/
def createPayment (user_id : String) (invoice_id : Nat) (invoice_number : String)
    (amount : Rat) (payment_method : String) (details : Option String)
    (gw : GatewayResponse) (correlation_id : Option String)
    (newId : Nat) (freshRef : String) (now : Nat) : CreatePaymentResult :=
  let p0 : Payment :=
    { id := newId
      user_id := user_id
      invoice_id := invoice_id
      invoice_number := invoice_number
      amount := amount
      currency := "USD"
      payment_method := payment_method
      payment_method_details := details
      transaction_reference := some freshRef
      external_reference := none
      status := PaymentStatus.processing
      status_message := none
      payment_date := none
      updated_at := now }
  let attempt := recordPaymentAttempt newId gw gw.success gw.error_message correlation_id
  if gw.success then
    { payment := updatePaymentStatus p0 PaymentStatus.completed none gw.transaction_id now
      attempts := [attempt]
      events := [paymentReceivedEventMsg] }
  else
    { payment := updatePaymentStatus p0 PaymentStatus.failed gw.error_message none now
      attempts := [attempt]
      events := [paymentFailedEventMsg] }

/-- A webhook notification as read by `handle_webhook_event`:
`event_data.get("event_type")`, `event_data.get("transaction_id")` and
`event_data.get("error_message", "Payment failed")`. -/
structure WebhookEvent where
  event_type : Option String
  transaction_id : Option String
  error_message : Option String
deriving DecidableEq, Repr

/-- The dict returned by `handle_webhook_event`. -/
structure WebhookResult where
  status : String
  message : Option String
deriving DecidableEq, Repr

/-- `PaymentService.handle_webhook_event` (`app/services/payment_service.py`,
lines 317-395): a falsy transaction id or an unknown payment is an error
result; otherwise the payment found by transaction reference (`lookup`) is
updated by event type — `payment.succeeded` sets COMPLETED with message
"Payment confirmed by gateway" and re-publishes `payment.received`,
`payment.failed` sets FAILED with the event's error message (default
"Payment failed") and publishes `payment.failed`, `payment.refunded` sets
REFUNDED with message "Payment refunded" — and any of these, as well as an
unrecognised event type, returns `{"status": "success"}`. -/
def handleWebhookEvent (lookup : Option Payment) (ev : WebhookEvent)
    (now : Nat) : WebhookResult × Option Payment × List EventMsg :=
  if ¬ strTruthy ev.transaction_id then
    ({ status := "error", message := some "Missing transaction_id" }, lookup, [])
  else
    match lookup with
    | none => ({ status := "error", message := some "Payment not found" }, none, [])
    | some p =>
      if ev.event_type = some "payment.succeeded" then
        ({ status := "success", message := none },
         some (updatePaymentStatus p PaymentStatus.completed
                 (some "Payment confirmed by gateway") none now),
         [paymentReceivedEventMsg])
      else if ev.event_type = some "payment.failed" then
        ({ status := "success", message := none },
         some (updatePaymentStatus p PaymentStatus.failed
                 (some (ev.error_message.getD "Payment failed")) none now),
         [paymentFailedEventMsg])
      else if ev.event_type = some "payment.refunded" then
        ({ status := "success", message := none },
         some (updatePaymentStatus p PaymentStatus.refunded
                 (some "Payment refunded") none now),
         [])
      else
        ({ status := "success", message := none }, some p, [])

/-- The status update always writes the requested status. -/
lemma updatePaymentStatus_status (p : Payment) (st : PaymentStatus)
    (sm er : Option String) (now : Nat) :
    (updatePaymentStatus p st sm er now).status = st := by
  unfold updatePaymentStatus
  split <;> split <;> split <;> rfl

/-- The status update never touches the amount. -/
lemma updatePaymentStatus_amount (p : Payment) (st : PaymentStatus)
    (sm er : Option String) (now : Nat) :
    (updatePaymentStatus p st sm er now).amount = p.amount := by
  unfold updatePaymentStatus
  split <;> split <;> split <;> rfl

/-- The status update never touches the transaction reference. -/
lemma updatePaymentStatus_transaction_reference (p : Payment) (st : PaymentStatus)
    (sm er : Option String) (now : Nat) :
    (updatePaymentStatus p st sm er now).transaction_reference = p.transaction_reference := by
  unfold updatePaymentStatus
  split <;> split <;> split <;> rfl

/-- Without a truthy external reference argument the stored one is kept. -/
lemma updatePaymentStatus_external_reference (p : Payment) (st : PaymentStatus)
    (sm : Option String) (now : Nat) :
    (updatePaymentStatus p st sm none now).external_reference = p.external_reference := by
  unfold updatePaymentStatus
  split <;> split <;> split <;> simp_all [strTruthy]

/-- The status update always refreshes `updated_at`. -/
lemma updatePaymentStatus_updated_at (p : Payment) (st : PaymentStatus)
    (sm er : Option String) (now : Nat) :
    (updatePaymentStatus p st sm er now).updated_at = now := by
  unfold updatePaymentStatus
  split <;> split <;> split <;> rfl

/-- `payment_date` is written exactly on a COMPLETED update with the date
currently unset, and kept otherwise. -/
lemma updatePaymentStatus_payment_date (p : Payment) (st : PaymentStatus)
    (sm er : Option String) (now : Nat) :
    (updatePaymentStatus p st sm er now).payment_date
      = if st = PaymentStatus.completed ∧ p.payment_date = none
        then some now else p.payment_date := by
  unfold updatePaymentStatus
  split <;> split <;> split <;> simp_all

/-- A truthy message argument is written to `status_message`. -/
lemma updatePaymentStatus_status_message_truthy (p : Payment) (st : PaymentStatus)
    (sm er : Option String) (now : Nat) (h : strTruthy sm = true) :
    (updatePaymentStatus p st sm er now).status_message = sm := by
  unfold updatePaymentStatus
  split <;> split <;> split <;> simp_all

/-- A falsy message argument leaves `status_message` untouched. -/
lemma updatePaymentStatus_status_message_falsy (p : Payment) (st : PaymentStatus)
    (sm er : Option String) (now : Nat) (h : strTruthy sm = false) :
    (updatePaymentStatus p st sm er now).status_message = p.status_message := by
  unfold updatePaymentStatus
  split <;> split <;> split <;> simp_all

/-- `paid_date` is written exactly on a transition to PAID from a different
status with the date currently unset, and kept otherwise. -/
lemma updateInvoiceStatus_paid_date (inv : Invoice) (ist : InvoiceStatus) (now : Nat) :
    (updateInvoiceStatus inv ist now).paid_date
      = if inv.status ≠ ist ∧ ist = InvoiceStatus.paid ∧ inv.paid_date = none
        then some now else inv.paid_date := by
  unfold updateInvoiceStatus
  split <;> rename_i h
  · dsimp only
    by_cases h2 : ist = InvoiceStatus.paid ∧ inv.paid_date = none
    · rw [if_pos h2, if_pos ⟨h, h2⟩]
    · rw [if_neg h2, if_neg (fun hc => h2 ⟨hc.2.1, hc.2.2⟩)]
  · rw [if_neg (fun hc => h hc.1)]

/-- A concrete COMPLETED payment whose state is exactly what a first
`payment.succeeded` webhook delivery at time 5 leaves behind. -/
def sampleCompletedPayment : Payment :=
  { id := 1
    user_id := "user-1"
    invoice_id := 7
    invoice_number := "INV-7"
    amount := 100
    currency := "USD"
    payment_method := "credit_card"
    payment_method_details := none
    transaction_reference := some "TXN-1-7"
    external_reference := none
    status := PaymentStatus.completed
    status_message := some "Payment confirmed by gateway"
    payment_date := some 5
    updated_at := 5 }

/-- The same `payment.succeeded` webhook delivered again. -/
def sampleSucceededWebhook : WebhookEvent :=
  { event_type := some "payment.succeeded"
    transaction_id := some "TXN-1-7"
    error_message := none }

/-- C5 counterexample: re-delivering the identical `payment.succeeded`
webhook to the already-COMPLETED payment reports success but does NOT leave
the payment record unchanged — the handler unconditionally calls
`update_payment_status`, which rewrites `updated_at` (here 5 to 6), so the
stored row differs from the one before re-delivery. -/
theorem C5_redelivery_rewrites_record_counterexample :
    (handleWebhookEvent (some sampleCompletedPayment) sampleSucceededWebhook 6).1.status
        = "success"
    ∧ (handleWebhookEvent (some sampleCompletedPayment) sampleSucceededWebhook 6).2.1
        ≠ some sampleCompletedPayment
    ∧ (handleWebhookEvent (some sampleCompletedPayment) sampleSucceededWebhook 6).2.1
        = some { sampleCompletedPayment with updated_at := 6 } := by
  refine ⟨rfl, ?_, by decide⟩
  decide

/-- Dispatch of a `payment.succeeded` webhook with a truthy transaction id. -/
lemma handleWebhookEvent_succeeded (p : Payment) (ev : WebhookEvent) (now : Nat)
    (ht : strTruthy ev.transaction_id = true)
    (hev : ev.event_type = some "payment.succeeded") :
    handleWebhookEvent (some p) ev now
      = ({ status := "success", message := none },
         some (updatePaymentStatus p PaymentStatus.completed
                 (some "Payment confirmed by gateway") none now),
         [paymentReceivedEventMsg]) := by
  simp [handleWebhookEvent, ht, hev]

/-- Dispatch of a `payment.failed` webhook with a truthy transaction id. -/
lemma handleWebhookEvent_failed (p : Payment) (ev : WebhookEvent) (now : Nat)
    (ht : strTruthy ev.transaction_id = true)
    (hev : ev.event_type = some "payment.failed") :
    handleWebhookEvent (some p) ev now
      = ({ status := "success", message := none },
         some (updatePaymentStatus p PaymentStatus.failed
                 (some (ev.error_message.getD "Payment failed")) none now),
         [paymentFailedEventMsg]) := by
  simp [handleWebhookEvent, ht, hev]

/-- Dispatch of a `payment.refunded` webhook with a truthy transaction id. -/
lemma handleWebhookEvent_refunded (p : Payment) (ev : WebhookEvent) (now : Nat)
    (ht : strTruthy ev.transaction_id = true)
    (hev : ev.event_type = some "payment.refunded") :
    handleWebhookEvent (some p) ev now
      = ({ status := "success", message := none },
         some (updatePaymentStatus p PaymentStatus.refunded
                 (some "Payment refunded") none now),
         []) := by
  simp [handleWebhookEvent, ht, hev]

/-- C5 as amended: re-delivering the webhook outcome matching a payment's
terminal status reports success and preserves the payment's status, its
already-set `payment_date`, its amount and its references — but it is not a
no-op on the record: `updated_at` is rewritten to the delivery time (and
`status_message` is re-written with the handler's message). -/
theorem C5_terminal_redelivery_success (p p' : Payment) (ev : WebhookEvent)
    (now : Nat)
    (ht : strTruthy ev.transaction_id = true)
    (hmatch : (ev.event_type = some "payment.succeeded" ∧ p.status = PaymentStatus.completed)
      ∨ (ev.event_type = some "payment.failed" ∧ p.status = PaymentStatus.failed)
      ∨ (ev.event_type = some "payment.refunded" ∧ p.status = PaymentStatus.refunded))
    (hres : (handleWebhookEvent (some p) ev now).2.1 = some p') :
    (handleWebhookEvent (some p) ev now).1.status = "success"
    ∧ p'.status = p.status
    ∧ (∀ d, p.payment_date = some d → p'.payment_date = some d)
    ∧ p'.amount = p.amount
    ∧ p'.transaction_reference = p.transaction_reference
    ∧ p'.external_reference = p.external_reference
    ∧ p'.updated_at = now := by
  rcases hmatch with ⟨hev, hst⟩ | ⟨hev, hst⟩ | ⟨hev, hst⟩
  · rw [handleWebhookEvent_succeeded p ev now ht hev] at hres ⊢
    dsimp only at hres ⊢
    simp only [Option.some.injEq] at hres
    subst hres
    refine ⟨rfl, ?_, ?_, updatePaymentStatus_amount .., updatePaymentStatus_transaction_reference ..,
      updatePaymentStatus_external_reference .., updatePaymentStatus_updated_at ..⟩
    · rw [updatePaymentStatus_status, hst]
    · intro d hd
      rw [updatePaymentStatus_payment_date, hd]
      simp
  · rw [handleWebhookEvent_failed p ev now ht hev] at hres ⊢
    dsimp only at hres ⊢
    simp only [Option.some.injEq] at hres
    subst hres
    refine ⟨rfl, ?_, ?_, updatePaymentStatus_amount .., updatePaymentStatus_transaction_reference ..,
      updatePaymentStatus_external_reference .., updatePaymentStatus_updated_at ..⟩
    · rw [updatePaymentStatus_status, hst]
    · intro d hd
      rw [updatePaymentStatus_payment_date, hd]
      simp
  · rw [handleWebhookEvent_refunded p ev now ht hev] at hres ⊢
    dsimp only at hres ⊢
    simp only [Option.some.injEq] at hres
    subst hres
    refine ⟨rfl, ?_, ?_, updatePaymentStatus_amount .., updatePaymentStatus_transaction_reference ..,
      updatePaymentStatus_external_reference .., updatePaymentStatus_updated_at ..⟩
    · rw [updatePaymentStatus_status, hst]
    · intro d hd
      rw [updatePaymentStatus_payment_date, hd]
      simp

/-- Witness for C5's amended statement: the concrete COMPLETED payment and
re-delivered webhook above. -/
theorem C5_terminal_redelivery_success_witness :
    (handleWebhookEvent (some sampleCompletedPayment) sampleSucceededWebhook 6).1.status
        = "success"
    ∧ { sampleCompletedPayment with updated_at := 6 }.payment_date = some 5 := by
  have h := C5_terminal_redelivery_success sampleCompletedPayment
    { sampleCompletedPayment with updated_at := 6 } sampleSucceededWebhook 6
    (by decide) (Or.inl ⟨rfl, rfl⟩) (by decide)
  exact ⟨h.1, h.2.2.1 5 rfl⟩

/-- A gateway failure outcome that carries no error message, as the real
`PaymentGateway.process_payment` returns when the provider's 4xx body has
no `error.message` field. -/
def gatewayFailureNoMessage : GatewayResponse :=
  { success := false
    error_code := some "card_declined"
    error_message := none
    transaction_id := none }

/-- C8 counterexample: a failing gateway outcome with no error message
leaves the payment FAILED with exactly one failed attempt and a
`payment.failed` event, but `status_message` stays null — it is NOT
populated for every failure, because `update_payment_status` writes it only
when truthy. -/
theorem C8_failed_without_message_counterexample :
    (createPayment "user-1" 7 "INV-7" 100 "credit_card" none
        gatewayFailureNoMessage none 1 "TXN-2-7" 2).payment.status
        = PaymentStatus.failed
    ∧ (createPayment "user-1" 7 "INV-7" 100 "credit_card" none
        gatewayFailureNoMessage none 1 "TXN-2-7" 2).payment.status_message = none
    ∧ (createPayment "user-1" 7 "INV-7" 100 "credit_card" none
        gatewayFailureNoMessage none 1 "TXN-2-7" 2).attempts.length = 1
    ∧ (createPayment "user-1" 7 "INV-7" 100 "credit_card" none
        gatewayFailureNoMessage none 1 "TXN-2-7" 2).events = [paymentFailedEventMsg] := by
  refine ⟨by decide, by decide, by decide, by decide⟩

/-- C8 as amended: every gateway call records exactly one PaymentAttempt;
on a failure outcome the payment is left FAILED, the single attempt has
success = 0, a `payment.failed` event is published, and `status_message` is
populated from the gateway error whenever the gateway supplies a non-empty
message (as the simulated decline does) — and left null when it supplies
none. -/
theorem C8_failed_gateway_call (u : String) (iid : Nat) (inum : String)
    (amt : Rat) (pm : String) (det : Option String) (gw : GatewayResponse)
    (cid : Option String) (nid : Nat) (fr : String) (now : Nat)
    (hf : gw.success = false) :
    (∀ gw' : GatewayResponse,
      (createPayment u iid inum amt pm det gw' cid nid fr now).attempts.length = 1)
    ∧ (createPayment u iid inum amt pm det gw cid nid fr now).payment.status
        = PaymentStatus.failed
    ∧ (createPayment u iid inum amt pm det gw cid nid fr now).attempts
        = [recordPaymentAttempt nid gw false gw.error_message cid]
    ∧ (recordPaymentAttempt nid gw false gw.error_message cid).success = 0
    ∧ (createPayment u iid inum amt pm det gw cid nid fr now).events
        = [paymentFailedEventMsg]
    ∧ (∀ m, gw.error_message = some m → m ≠ "" →
        (createPayment u iid inum amt pm det gw cid nid fr now).payment.status_message
          = some m)
    ∧ (gw.error_message = none →
        (createPayment u iid inum amt pm det gw cid nid fr now).payment.status_message
          = none) := by
  refine ⟨?_, ?_, ?_, rfl, ?_, ?_, ?_⟩
  · intro gw'
    unfold createPayment
    split <;> rfl
  · simp only [createPayment, hf, Bool.false_eq_true, if_false]
    exact updatePaymentStatus_status ..
  · simp [createPayment, hf]
  · simp [createPayment, hf]
  · intro m hm hne
    simp only [createPayment, hf, Bool.false_eq_true, if_false]
    rw [updatePaymentStatus_status_message_truthy]
    · exact hm
    · rw [hm]
      simp [strTruthy, hne]
  · intro hm
    simp only [createPayment, hf, Bool.false_eq_true, if_false]
    rw [updatePaymentStatus_status_message_falsy]
    rw [hm]
    rfl

/-- Witness for C8's amended statement at the mock gateway's simulated
decline: a card number ending in 0000 yields "Card was declined" as the
stored status message, one failed attempt, and the failed event. -/
theorem C8_failed_gateway_call_witness :
    (createPayment "user-1" 7 "INV-7" 100 "credit_card" none
        (mockProcessPayment "4111-0000" "TXN-x") none 1 "TXN-3-7" 2).payment.status
        = PaymentStatus.failed
    ∧ (createPayment "user-1" 7 "INV-7" 100 "credit_card" none
        (mockProcessPayment "4111-0000" "TXN-x") none 1 "TXN-3-7" 2).payment.status_message
        = some "Card was declined"
    ∧ (createPayment "user-1" 7 "INV-7" 100 "credit_card" none
        (mockProcessPayment "4111-0000" "TXN-x") none 1 "TXN-3-7" 2).attempts.length = 1 := by
  have h := C8_failed_gateway_call "user-1" 7 "INV-7" 100 "credit_card" none
    (mockProcessPayment "4111-0000" "TXN-x") none 1 "TXN-3-7" 2 (by decide)
  exact ⟨h.2.1, h.2.2.2.2.2.1 "Card was declined" (by decide) (by decide),
    h.1 (mockProcessPayment "4111-0000" "TXN-x")⟩

/-- C10: once `payment_date` (resp. `paid_date`) is set, no status update
overwrites it; and when unset, the date is written exactly by a transition
to COMPLETED (resp. to PAID from a different status) and by nothing else. -/
theorem C10_completion_dates_write_once (p : Payment) (inv : Invoice)
    (st : PaymentStatus) (ist : InvoiceStatus) (sm er : Option String)
    (now d : Nat) :
    (p.payment_date = some d →
      (updatePaymentStatus p st sm er now).payment_date = some d)
    ∧ (p.payment_date = none →
      (updatePaymentStatus p st sm er now).payment_date
        = if st = PaymentStatus.completed then some now else none)
    ∧ (inv.paid_date = some d →
      (updateInvoiceStatus inv ist now).paid_date = some d)
    ∧ (inv.paid_date = none →
      (updateInvoiceStatus inv ist now).paid_date
        = if ist = InvoiceStatus.paid ∧ inv.status ≠ ist then some now else none) := by
  refine ⟨?_, ?_, ?_, ?_⟩
  · intro hd
    rw [updatePaymentStatus_payment_date, hd]
    simp
  · intro hd
    rw [updatePaymentStatus_payment_date, hd]
    by_cases hc : st = PaymentStatus.completed <;> simp [hc]
  · intro hd
    rw [updateInvoiceStatus_paid_date, hd]
    simp
  · intro hd
    rw [updateInvoiceStatus_paid_date, hd]
    by_cases h1 : ist = InvoiceStatus.paid <;> by_cases h2 : inv.status = ist <;>
      simp [h1, h2]

/-- Witness for C10: an already-paid payment keeps its date under a REFUNDED
update, and the paid invoice keeps `paid_date` when re-updated. -/
theorem C10_completion_dates_write_once_witness :
    (updatePaymentStatus sampleCompletedPayment PaymentStatus.refunded
        (some "Payment refunded") none 9).payment_date = some 5
    ∧ (updatePaymentStatus { sampleCompletedPayment with payment_date := none }
        PaymentStatus.completed none none 9).payment_date
        = if PaymentStatus.completed = PaymentStatus.completed then some 9 else none := by
  have h1 := C10_completion_dates_write_once sampleCompletedPayment sampleIssued
    PaymentStatus.refunded InvoiceStatus.paid (some "Payment refunded") none 9 5
  have h2 := C10_completion_dates_write_once
    { sampleCompletedPayment with payment_date := none } sampleIssued
    PaymentStatus.completed InvoiceStatus.paid none none 9 5
  exact ⟨h1.1 rfl, h2.2.1 rfl⟩

/-- Python truthiness of an optional float: `None` and `0.0` are falsy. -/
def ratTruthy : Option Rat → Bool
  | none => false
  | some q => q ≠ 0

/-- Coupon row of `discount-service/app/models/discount.py`
(`DiscountCoupon`). -/
structure DiscountCoupon where
  id : Nat
  code : String
  description : Option String
  discount_percent : Rat
  max_discount_amount : Option Rat
  is_active : Bool
  valid_until : Option Nat
deriving DecidableEq, Repr

/-- User-type discount row (`UserTypeDiscount`). -/
structure UserTypeDiscount where
  user_type : String
  discount_percent : Rat
deriving DecidableEq, Repr

/-- Amount-based discount row (`AmountBasedDiscount`). -/
structure AmountBasedDiscount where
  min_amount : Rat
  max_amount : Option Rat
  discount_percent : Rat
deriving DecidableEq, Repr

/-- The discount service's tables. -/
structure DiscountDB where
  coupons : List DiscountCoupon
  user_type_discounts : List UserTypeDiscount
  amount_discounts : List AmountBasedDiscount
deriving DecidableEq, Repr

/-- `DiscountRepository.get_coupon_by_code`
(`app/repositories/discount_repository.py`, lines 21-27): first coupon with
the given code that is active and not expired (`valid_until` null or in the
future). -/
def getCouponByCode (db : DiscountDB) (code : String) (now : Nat) :
    Option DiscountCoupon :=
  (db.coupons.filter fun c =>
    c.code == code && c.is_active &&
      (match c.valid_until with
       | none => true
       | some t => decide (now < t))).head?

/-- `DiscountRepository.get_user_type_discount` (lines 29-33): first row for
the user type. -/
def getUserTypeDiscount (db : DiscountDB) (user_type : String) :
    Option UserTypeDiscount :=
  (db.user_type_discounts.filter fun u => u.user_type = user_type).head?

/-- `DiscountRepository.get_amount_based_discount` (lines 35-40): among rows
whose interval contains the amount, the one with the highest
`discount_percent` (the query orders by the percentage descending and takes
the first row; ties keep the earlier row). -/
def getAmountBasedDiscount (db : DiscountDB) (amount : Rat) :
    Option AmountBasedDiscount :=
  let eligible := db.amount_discounts.filter fun a =>
    decide (a.min_amount ≤ amount) &&
      (match a.max_amount with
       | none => true
       | some m => decide (amount ≤ m))
  eligible.foldl (fun best a =>
    match best with
    | none => some a
    | some b => if b.discount_percent < a.discount_percent then some a else some b) none

/-- The coupon block of `DiscountService.apply_discount`
(`app/services/discount_service.py`, lines 40-48): percentage of the
amount, capped by `max_discount_amount` when that cap is truthy
(Python treats both null and 0.0 as no cap). -/
def couponDiscount (amount : Rat) (c : DiscountCoupon) : Rat :=
  let da := amount * (c.discount_percent / 100)
  if ratTruthy c.max_discount_amount then
    match c.max_discount_amount with
    | some m => if da > m then m else da
    | none => da
  else da

/-- The rule descriptor built by the service
(`app/schemas/discount.py`, `DiscountRule`); the free-text `description`
field, which only interpolates numbers into prose, is abstracted away. -/
structure DiscountRule where
  name : String
  discount_percent : Rat
  discount_type : String
deriving DecidableEq, Repr

/-- The chain of the three discount tiers in `apply_discount`
(`app/services/discount_service.py`, lines 31-97), in source order:
coupon (only when a truthy coupon code is supplied and found), then user
type (only when the accumulated discount is still zero and a truthy user id
is supplied; the user type is hard-coded "regular"), then amount-based
(only when the accumulated discount is still zero).  Returns the discount
amount, the rule descriptor, the coupon id and the discount type tag. -/
def discountChain (db : DiscountDB) (now : Nat) (amount : Rat)
    (coupon_code : Option String) (user_id : Option String) :
    Rat × Option DiscountRule × Option Nat × String :=
  let s0 : Rat × Option DiscountRule × Option Nat × String :=
    (0, none, none, "none")
  let s1 :=
    if strTruthy coupon_code then
      match getCouponByCode db (coupon_code.getD "") now with
      | some c =>
        (couponDiscount amount c,
         some { name := "Coupon: " ++ coupon_code.getD ""
                discount_percent := c.discount_percent
                discount_type := "coupon" },
         some c.id, "coupon")
      | none => s0
    else s0
  let s2 :=
    if s1.1 = 0 ∧ strTruthy user_id then
      match getUserTypeDiscount db "regular" with
      | some u =>
        (amount * (u.discount_percent / 100),
         some { name := "User Type: regular"
                discount_percent := u.discount_percent
                discount_type := "user_type" },
         s1.2.2.1, "user_type")
      | none => s1
    else s1
  if s2.1 = 0 then
    match getAmountBasedDiscount db amount with
    | some a =>
      (amount * (a.discount_percent / 100),
       some { name := "Amount Based"
              discount_percent := a.discount_percent
              discount_type := "amount_based" },
       s2.2.2.1, "amount_based")
    | none => s2
  else s2

/-- Response of `apply_discount` (`app/schemas/discount.py`,
`DiscountResponse`). -/
structure DiscountResponse where
  original_amount : Rat
  discount_amount : Rat
  final_amount : Rat
  discount_rule : Option DiscountRule
  coupon_code : Option String
deriving DecidableEq, Repr

/-- Discount application row (`DiscountApplication`), as written by
`DiscountRepository.create_discount_application`. -/
structure DiscountApplication where
  user_id : Option String
  original_amount : Rat
  discount_amount : Rat
  final_amount : Rat
  discount_type : String
  coupon_id : Option Nat
deriving DecidableEq, Repr

/-- `publish_discount_applied`
(`discount-service/app/core/event_publisher.py`, lines 90-107): event type
`discount_applied` on routing key `discount.applied`. -/
def discountAppliedEventMsg : EventMsg :=
  { routing_key := "discount.applied", event_type := "discount_applied" }

/-- Result of `apply_discount`: response, application rows written, events
published. -/
structure ApplyDiscountResult where
  response : DiscountResponse
  applications : List DiscountApplication
  events : List EventMsg
deriving DecidableEq, Repr

/-- `DiscountService.apply_discount` (`app/services/discount_service.py`,
lines 16-137): run the tier chain, compute the final amount, and — only
when the resulting discount is positive — store one application row and
publish the `discount.applied` event; the response always reports the
amounts, the rule applied and, for a coupon discount, the coupon code. -/
def applyDiscount (db : DiscountDB) (now : Nat) (amount : Rat)
    (coupon_code : Option String) (user_id : Option String) :
    ApplyDiscountResult :=
  let s := discountChain db now amount coupon_code user_id
  let final := amount - s.1
  { response :=
      { original_amount := amount
        discount_amount := s.1
        final_amount := final
        discount_rule := s.2.1
        coupon_code := if s.2.2.2 = "coupon" then coupon_code else none }
    applications :=
      if s.1 > 0 then
        [{ user_id := user_id
           original_amount := amount
           discount_amount := s.1
           final_amount := final
           discount_type := s.2.2.2
           coupon_id := s.2.2.1 }]
      else []
    events := if s.1 > 0 then [discountAppliedEventMsg] else [] }

/-- A valid, active 0% coupon. -/
def c6ZeroCoupon : DiscountCoupon :=
  { id := 1
    code := "ZERO"
    description := none
    discount_percent := 0
    max_discount_amount := none
    is_active := true
    valid_until := none }

/-- An amount tier: 5% for orders of at least 100. -/
def c6Tier : AmountBasedDiscount :=
  { min_amount := 100, max_amount := none, discount_percent := 5 }

/-- Tables holding the 0% coupon and the 5% amount tier. -/
def c6DB : DiscountDB :=
  { coupons := [c6ZeroCoupon], user_type_discounts := [], amount_discounts := [c6Tier] }

/-- C6 counterexample: the chain does not stop at the first *match* but at
the first *non-zero discount*.  With a valid, active 0% coupon supplied and
a qualifying 5% amount tier, the coupon is found (first match) yet the
amount-tier discount of 10 is applied to amount 200 — not only the coupon
discount — so the claimed strict first-match priority fails. -/
theorem C6_zero_coupon_falls_through_counterexample :
    getCouponByCode c6DB "ZERO" 0 = some c6ZeroCoupon
    ∧ (applyDiscount c6DB 0 200 (some "ZERO") none).response.discount_amount = 10
    ∧ (applyDiscount c6DB 0 200 (some "ZERO") none).response.discount_rule
        = some { name := "Amount Based", discount_percent := 5,
                 discount_type := "amount_based" } := by
  refine ⟨by decide, by with_unfolding_all decide, by with_unfolding_all decide⟩

/-- C6 as amended: at most one discount is applied, with priority
coupon > user-type > amount-threshold, but a tier advances the chain
whenever the accumulated discount is still zero, so a matching tier with a
zero discount falls through; whenever the supplied coupon is found and its
(capped) discount is positive, only the coupon discount is applied —
percentage of the amount, capped at the coupon's maximum absolute discount
when that cap is set and non-zero — and an application record and event are
emitted exactly when the resulting discount is positive. -/
theorem C6_discount_priority (db : DiscountDB) (now : Nat) (amount : Rat)
    (code uid : Option String) (c : DiscountCoupon)
    (hcode : strTruthy code = true)
    (hfound : getCouponByCode db (code.getD "") now = some c)
    (hpos : 0 < couponDiscount amount c) :
    (applyDiscount db now amount code uid).response.discount_amount
        = couponDiscount amount c
    ∧ (applyDiscount db now amount code uid).response.discount_rule
        = some { name := "Coupon: " ++ code.getD ""
                 discount_percent := c.discount_percent
                 discount_type := "coupon" }
    ∧ (applyDiscount db now amount code uid).response.coupon_code = code
    ∧ (applyDiscount db now amount code uid).applications.length = 1
    ∧ (applyDiscount db now amount code uid).events = [discountAppliedEventMsg]
    ∧ (∀ (db' : DiscountDB) (now' : Nat) (amount' : Rat) (code' uid' : Option String),
        ((applyDiscount db' now' amount' code' uid').applications = []
          ∧ (applyDiscount db' now' amount' code' uid').events = [])
        ↔ ¬ 0 < (applyDiscount db' now' amount' code' uid').response.discount_amount) := by
  have hchain : discountChain db now amount code uid
      = (couponDiscount amount c,
         some { name := "Coupon: " ++ code.getD ""
                discount_percent := c.discount_percent
                discount_type := "coupon" },
         some c.id, "coupon") := by
    unfold discountChain
    simp only [hcode, if_true, hfound]
    simp [hpos.ne']
  refine ⟨?_, ?_, ?_, ?_, ?_, ?_⟩
  · simp [applyDiscount, hchain]
  · simp [applyDiscount, hchain]
  · simp [applyDiscount, hchain]
  · simp [applyDiscount, hchain, hpos]
  · simp [applyDiscount, hchain, hpos]
  · intro db' now' amount' code' uid'
    by_cases h : 0 < (discountChain db' now' amount' code' uid').1 <;>
      simp [applyDiscount, h]

/-- The spec's own example coupon: 10%, capped at an absolute 15. -/
def c6CapCoupon : DiscountCoupon :=
  { id := 2
    code := "SAVE10"
    description := none
    discount_percent := 10
    max_discount_amount := some 15
    is_active := true
    valid_until := none }

/-- Tables holding the capped coupon and the 5% amount tier. -/
def c6WitnessDB : DiscountDB :=
  { coupons := [c6CapCoupon], user_type_discounts := [], amount_discounts := [c6Tier] }

/-- Witness for C6's amended statement at the spec's example: amount 200
with a valid 10% coupon capped at 15 and a qualifying 5% tier yields
discount 15 (the capped coupon discount, not the tier's 10), with one
application record. -/
theorem C6_discount_priority_witness :
    (applyDiscount c6WitnessDB 0 200 (some "SAVE10") none).response.discount_amount = 15
    ∧ (applyDiscount c6WitnessDB 0 200 (some "SAVE10") none).applications.length = 1 := by
  have h := C6_discount_priority c6WitnessDB 0 200 (some "SAVE10") none c6CapCoupon
    (by decide) (by decide) (by with_unfolding_all decide)
  have hval : couponDiscount 200 c6CapCoupon = 15 := by with_unfolding_all decide
  exact ⟨by rw [h.1, hval], h.2.2.2.1⟩

/-- Tax rule row of `tax-service/app/models/tax.py` (`TaxRule`); the
location columns, unused by `calculate_tax`, are omitted. -/
structure TaxRuleRow where
  id : Nat
  name : String
  rate : Rat
  product_type : String
deriving DecidableEq, Repr

/-- `TaxRepository.get_tax_rules_by_product_type`
(`app/repositories/tax_repository.py`, lines 16-18): all rules for the
product type. -/
def getTaxRulesByProductType (db : List TaxRuleRow) (pt : String) :
    List TaxRuleRow :=
  db.filter fun r => r.product_type == pt

/-- `TaxRepository.get_default_tax_rule` (lines 20-24): first rule named
"default". -/
def getDefaultTaxRule (db : List TaxRuleRow) : Option TaxRuleRow :=
  (db.filter fun r => r.name == "default").head?

/-- A rule as echoed in the response (`app/schemas/tax.py`, `TaxRule`);
the prose `description` is abstracted away. -/
structure AppliedTaxRule where
  name : String
  rate : Rat
deriving DecidableEq, Repr

/-- Response of `calculate_tax` (`app/schemas/tax.py`,
`TaxCalculationResponse`). -/
structure TaxCalculationResponse where
  original_amount : Rat
  tax_amount : Rat
  rules_applied : List AppliedTaxRule
  total_amount : Rat
deriving DecidableEq, Repr

/-- Modelled from the spec: the tax-service event publisher module
(`app.core.event_publisher`, imported by `app/services/tax_service.py`) is
not under `src/`; §6 of the spec lists the routing key `tax.calculated` for
the tax-calculated event. -/
def taxCalculatedEventMsg : EventMsg :=
  { routing_key := "tax.calculated", event_type := "tax_calculated" }

/-- Result of `calculate_tax`: the response, the number of
`TaxCalculation` history rows written, and the events published. -/
structure CalculateTaxResult where
  response : TaxCalculationResponse
  calculations_recorded : Nat
  events : List EventMsg
deriving DecidableEq, Repr

/-- `TaxService.calculate_tax` (`app/services/tax_service.py`,
lines 16-89): take the rules for the product type, falling back to the
single "default" rule when there are none (and to no rules at all when
there is no default either); accumulate `amount * rate` over the selected
rules; record a calculation row only when at least one rule was selected;
always publish the `tax.calculated` event. -/
def calculateTax (db : List TaxRuleRow) (amount : Rat) (product_type : String) :
    CalculateTaxResult :=
  let byType := getTaxRulesByProductType db product_type
  let rules :=
    if byType.isEmpty then
      match getDefaultTaxRule db with
      | some d => [d]
      | none => []
    else byType
  let tax_amount := rules.foldl (fun acc r => acc + amount * r.rate) 0
  let total := amount + tax_amount
  { response :=
      { original_amount := amount
        tax_amount := tax_amount
        rules_applied := rules.map fun r => { name := r.name, rate := r.rate }
        total_amount := total }
    calculations_recorded := if rules.isEmpty then 0 else 1
    events := [taxCalculatedEventMsg] }

/-- Folding rate contributions from an accumulator adds their sum to it. -/
lemma foldl_rate_sum (l : List TaxRuleRow) (amount acc : Rat) :
    l.foldl (fun a r => a + amount * r.rate) acc
      = acc + (l.map fun r => amount * r.rate).sum := by
  induction l generalizing acc with
  | nil => simp
  | cons x xs ih => simp [List.foldl_cons, ih, add_assoc]

/-- C7: `calculate_tax` returns the sum of `rate * amount` over the rules
matching the product type; with no matching rule it falls back to the
single "default" rule; with no matching rule and no default rule it returns
tax 0 with an empty `rules_applied` list and still publishes the
`tax.calculated` event. -/
theorem C7_calculate_tax_sum (db : List TaxRuleRow) (amount : Rat) (pt : String) :
    (getTaxRulesByProductType db pt ≠ [] →
      (calculateTax db amount pt).response.tax_amount
        = ((getTaxRulesByProductType db pt).map fun r => amount * r.rate).sum)
    ∧ (∀ d, getTaxRulesByProductType db pt = [] → getDefaultTaxRule db = some d →
      (calculateTax db amount pt).response.tax_amount = amount * d.rate)
    ∧ (getTaxRulesByProductType db pt = [] → getDefaultTaxRule db = none →
      (calculateTax db amount pt).response.tax_amount = 0
      ∧ (calculateTax db amount pt).response.rules_applied = []
      ∧ (calculateTax db amount pt).calculations_recorded = 0
      ∧ (calculateTax db amount pt).events = [taxCalculatedEventMsg]) := by
  refine ⟨?_, ?_, ?_⟩
  · intro hne
    have hb : (getTaxRulesByProductType db pt).isEmpty = false := by
      cases h : getTaxRulesByProductType db pt with
      | nil => exact absurd h hne
      | cons a l => rfl
    simp [calculateTax, hb, foldl_rate_sum]
  · intro d hempty hdef
    simp [calculateTax, hempty, hdef, List.isEmpty_nil]
  · intro hempty hdef
    simp [calculateTax, hempty, hdef, List.isEmpty_nil]

/-- A lone "default" rule at 19%. -/
def c7DefaultRule : TaxRuleRow :=
  { id := 1, name := "default", rate := 19/100, product_type := "any" }

/-- Witness for C7: with only the default rule, a digital product falls
back to it (tax 19 on 100); with no rules at all, tax is 0, no rule is
echoed, and the event is still published. -/
theorem C7_calculate_tax_sum_witness :
    (calculateTax [c7DefaultRule] 100 "digital").response.tax_amount
        = 100 * c7DefaultRule.rate
    ∧ (calculateTax [] 100 "digital").response.tax_amount = 0
    ∧ (calculateTax [] 100 "digital").response.rules_applied = []
    ∧ (calculateTax [] 100 "digital").events = [taxCalculatedEventMsg] := by
  have h1 := C7_calculate_tax_sum [c7DefaultRule] 100 "digital"
  have h2 := C7_calculate_tax_sum [] 100 "digital"
  have h3 := h2.2.2 (by decide) (by decide)
  exact ⟨h1.2.1 c7DefaultRule (by decide) (by with_unfolding_all decide),
    h3.1, h3.2.1, h3.2.2.2⟩

/-- Connection state of a publisher (`EventPublisher` /
`BaseEventPublisher`). -/
structure PublisherState where
  connected : Bool
deriving DecidableEq, Repr

/-- The `event_data` dict handed to `publish_event`: an optional
`event_type` and an optional `payload` (the payload itself is abstracted to
key-value pairs). -/
structure PublishEventData where
  event_type : Option String
  payload : Option (List (String × String))
deriving DecidableEq, Repr

/-- The standardized event envelope built by `publish_event`
(`invoice-service/app/core/event_publisher.py`, lines 64-72, and
`shared/event_utils.py`, lines 64-72; the shared variant additionally
stamps `source_service`). -/
structure EventEnvelope where
  event_id : String
  event_type : String
  timestamp : Nat
  correlation_id : String
  source_service : Option String
  payload : List (String × String)
deriving DecidableEq, Repr

/-- The AMQP message handed to the exchange: body envelope, persistent
delivery mode, `message_id` from the envelope's event id, and the raw
(possibly null) correlation id as the message property. -/
structure SentMessage where
  routing_key : String
  body : EventEnvelope
  persistent : Bool
  message_id : String
  message_correlation_id : Option String
deriving DecidableEq, Repr

/-- Outcome of one `publish_event` call: the publisher state after it, the
returned boolean, the message delivered to the exchange (if any), and how
many connection attempts were made during the call. -/
structure PublishOutcome where
  state : PublisherState
  ok : Bool
  sent : Option SentMessage
  connect_attempts : Nat
deriving DecidableEq, Repr

/-- `publish_event` (`invoice-service/app/core/event_publisher.py`,
lines 54-88 = `shared/event_utils.py`, lines 54-89): when not connected it
calls `connect()` once — `connect` absorbs its own failure, leaving
`connected` false, in which case `publish_event` returns false — then
builds the envelope (generated event id and timestamp, the given
correlation id or a generated one, payload defaulting to empty, event type
defaulting to "unknown"), publishes it with persistent delivery, and
returns true; any send failure is caught and turned into a false return.
The environment's answers (does a connection attempt succeed, does the send
succeed) are the `connectOk` / `sendOk` inputs; `freshEventId` /
`freshCorrId` are the generated uuids and `now` the clock. -/
def publishEvent (st : PublisherState) (connectOk sendOk : Bool)
    (service_name : Option String) (routing_key : String)
    (event_data : PublishEventData) (corr : Option String)
    (freshEventId freshCorrId : String) (now : Nat) : PublishOutcome :=
  let step := if st.connected then (st, 0) else (PublisherState.mk connectOk, 1)
  let st1 := step.1
  let attempts := step.2
  if st1.connected = false then
    { state := st1, ok := false, sent := none, connect_attempts := attempts }
  else
    let envelope : EventEnvelope :=
      { event_id := freshEventId
        event_type := event_data.event_type.getD "unknown"
        timestamp := now
        correlation_id := corr.getD freshCorrId
        source_service := service_name
        payload := event_data.payload.getD [] }
    if sendOk then
      { state := st1
        ok := true
        sent := some { routing_key := routing_key
                       body := envelope
                       persistent := true
                       message_id := freshEventId
                       message_correlation_id := corr }
        connect_attempts := attempts }
    else
      { state := st1, ok := false, sent := none, connect_attempts := attempts }

/-- C9: `publish_event` always returns a boolean (the embedding is a total
function; both the connect and the send path absorb their exceptions) —
true exactly when a connection was available or obtained and the send
succeeded; every message actually sent carries the generated event id as
envelope id and message id, the clock timestamp, the given correlation id
or the generated one, the defaulted event type and payload, and persistent
delivery; and when the publisher starts disconnected exactly one reconnect
is attempted, a failed reconnect yielding false with nothing sent, while a
connected publisher attempts none. -/
theorem C9_publish_event_contract (st : PublisherState) (cok sok : Bool)
    (svc : Option String) (rk : String) (ed : PublishEventData)
    (corr : Option String) (fid fcid : String) (now : Nat) :
    (publishEvent st cok sok svc rk ed corr fid fcid now).ok
        = ((st.connected || cok) && sok)
    ∧ (∀ m, (publishEvent st cok sok svc rk ed corr fid fcid now).sent = some m →
        m.body.event_id = fid
        ∧ m.message_id = fid
        ∧ m.body.timestamp = now
        ∧ m.body.correlation_id = corr.getD fcid
        ∧ m.body.event_type = ed.event_type.getD "unknown"
        ∧ m.body.payload = ed.payload.getD []
        ∧ m.persistent = true
        ∧ m.routing_key = rk)
    ∧ (st.connected = false →
        (publishEvent st cok sok svc rk ed corr fid fcid now).connect_attempts = 1
        ∧ (cok = false →
            (publishEvent st cok sok svc rk ed corr fid fcid now).ok = false
            ∧ (publishEvent st cok sok svc rk ed corr fid fcid now).sent = none))
    ∧ (st.connected = true →
        (publishEvent st cok sok svc rk ed corr fid fcid now).connect_attempts = 0) := by
  obtain ⟨c⟩ := st
  cases c <;> cases cok <;> cases sok <;>
    refine ⟨by simp [publishEvent], ?_, by simp [publishEvent], by simp [publishEvent]⟩ <;>
    intro m hm <;>
    simp only [publishEvent, Bool.false_eq_true, if_true, if_false,
      Option.some.injEq, reduceCtorEq] at hm <;>
    first
      | exact absurd hm (by simp)
      | (subst hm; exact ⟨rfl, rfl, rfl, rfl, rfl, rfl, rfl, rfl⟩)

/-- Witness for C9: a disconnected publisher whose reconnect fails makes
exactly one attempt and returns false with nothing sent; a connected one
sending successfully returns true. -/
theorem C9_publish_event_contract_witness :
    (publishEvent ⟨false⟩ false true none "invoice.created"
        ⟨some "invoice_created", none⟩ none "evt-1" "corr-1" 0).connect_attempts = 1
    ∧ (publishEvent ⟨false⟩ false true none "invoice.created"
        ⟨some "invoice_created", none⟩ none "evt-1" "corr-1" 0).ok = false
    ∧ (publishEvent ⟨true⟩ true true none "invoice.created"
        ⟨some "invoice_created", none⟩ none "evt-1" "corr-1" 0).ok = true := by
  have h1 := C9_publish_event_contract ⟨false⟩ false true none "invoice.created"
    ⟨some "invoice_created", none⟩ none "evt-1" "corr-1" 0
  have h2 := C9_publish_event_contract ⟨true⟩ true true none "invoice.created"
    ⟨some "invoice_created", none⟩ none "evt-1" "corr-1" 0
  exact ⟨(h1.2.2.1 rfl).1, ((h1.2.2.1 rfl).2 rfl).1, h2.1⟩

end Billing
